import Mathlib

/-!
Shallow embedding of the routing and failover engine of the Praxoimous
Gateway (files `core/model_router.py`, `core/provider_manager.py`,
`core/system_context.py`).

Python dictionaries whose values matter only as strings are embedded as
association lists of strings; asynchronous calls are embedded as pure
functions returning their observable outcome (a result, a raised
exception's message, or a stream outcome).  Wall-clock timestamps and the
provider metadata snapshot carried by health records are not modelled:
no verified property mentions them.
-/

namespace Praxoimous

/-- A Python `dict` restricted to string keys and string values, as an
association list.  Lookup finds the first matching key. -/
abbrev Dict := List (String × String)

/-- Value of `d[k]` if present (`d.get(k)` in the source). -/
def dictGet (d : Dict) (k : String) : Option String :=
  (d.find? (fun kv => kv.1 == k)).map (·.2)

/-- Python dict assignment `d[k] = v`: overwrites an existing binding for
`k`, otherwise appends one. -/
def dictSet (d : Dict) (k v : String) : Dict :=
  if d.any (fun kv => kv.1 == k) then
    d.map (fun kv => if kv.1 == k then (k, v) else kv)
  else
    d ++ [(k, v)]

/-- Observable outcome of one call to a provider's `check_health`
coroutine: it raised an exception, returned a dict, or returned some
non-dict value. -/
inductive HealthOutcome where
  | raises (msg : String)
  | returnsDict (d : Dict)
  | returnsOther
deriving Repr

/-- Observable outcome of consuming a provider's `generate_stream_async`
generator: the chunks it yields, and whether iteration then raises an
exception (with its message) or terminates normally. -/
structure StreamOutcome where
  chunks : List Dict
  raisesAfter : Option String
deriving Repr

/-- One provider instance as the router sees it: its registry name, the
`enabled` configuration flag, the `supports_streaming` capability flag,
and the observable behaviour of its three fallible operations
(`generate_async`, `generate_stream_async`, `check_health`).
`generate` returns `.error msg` when the call raises. -/
structure Provider where
  name : String
  enabled : Bool
  supports_streaming : Bool
  generate : String → Except String Dict
  generate_stream : String → StreamOutcome
  check_health : HealthOutcome

/-! ## System context (`core/system_context.py`) -/

/-- The identity configuration backing `SystemContext`.  Each field is
`none` when the corresponding key is absent from `identity.yaml` (or the
file failed to load, leaving the data empty). -/
structure IdentityData where
  system_name : Option String := none
  business_name : Option String := none
  industry : Option String := none
  persona_style : Option String := none
deriving Repr

/-- Python truthiness of an optional string: `None` and `""` are falsy. -/
def pyTruthy : Option String → Bool
  | none => false
  | some s => s ≠ ""

/-- The `system_name` property: defaults to `Praximous-Unconfigured`. -/
def systemNameOf (c : IdentityData) : String :=
  c.system_name.getD "Praximous-Unconfigured"

/-- `SystemContext.get_system_prompt`: prepends the persona context when
system name, business name and industry are all truthy, otherwise
returns the user prompt unchanged. -/
def get_system_prompt (c : IdentityData) (user_prompt : String) : String :=
  if pyTruthy (some (systemNameOf c)) && pyTruthy c.business_name
      && pyTruthy c.industry then
    let persona := if pyTruthy c.persona_style then
        c.persona_style.getD "" else "a helpful AI assistant"
    "You are " ++ systemNameOf c ++ ", a specialized AI for "
      ++ c.business_name.getD "" ++ ", which operates in the "
      ++ c.industry.getD "" ++ " industry. Your persona should be: "
      ++ persona ++ ". Given the user's request, provide a response.\n\n---\n\nUser Request: "
      ++ user_prompt
  else
    user_prompt

/-! ## Routing rules (`ModelRouter._load_routing_rules`) -/

/-- The routing table: task type to ordered list of provider names. -/
abbrev RoutingRules := List (String × List String)

/-- Lookup of a task type in the routing table (`dict.get`). -/
def lookupRule (rules : RoutingRules) (task : String) : Option (List String) :=
  (rules.find? (fun kv => kv.1 == task)).map (·.2)

/-- State of `config/routing.yaml` as `_load_routing_rules` observes it:
absent (FileNotFoundError), unreadable or malformed yaml, or parsed,
where `parsed (some rules)` means the parsed config was truthy and
contained a `routing_rules` key bound to `rules`. -/
inductive RoutingConfigFile where
  | absent
  | malformed
  | parsed (config : Option RoutingRules)

/-- `ModelRouter._load_routing_rules`: uses the file's `routing_rules`
when the file parses to a truthy config containing that key, otherwise
falls back to the hard-coded default table. -/
def load_routing_rules : RoutingConfigFile → RoutingRules
  | .parsed (some rules) => rules
  | _ => [("__default__", ["gemini-primary", "ollama-failover"])]

/-- The resolution step shared by `route_request` and
`route_request_stream`:
`self.routing_rules.get(task_type, self.routing_rules.get("__default__"))`. -/
def resolve_sequence (rules : RoutingRules) (task_type : String) :
    Option (List String) :=
  match lookupRule rules task_type with
  | some seq => some seq
  | none => lookupRule rules "__default__"

/-! ## Provider registry (`ProviderManager`) -/

/-- The registry's provider map, keyed by instance name, in insertion
order (a Python dict). -/
abbrev ProviderMap := List (String × Provider)

/-- `ProviderManager.get_provider`. -/
def get_provider (pm : ProviderMap) (name : String) : Option Provider :=
  (pm.find? (fun kv => kv.1 == name)).map (·.2)

/-! ## Router (`ModelRouter`) -/

/-- Typed failures of the router: `raise ValueError(...)` and
`raise NoAvailableProviderError(...)`, each carrying its message. -/
inductive RouteError where
  | valueError (msg : String)
  | noAvailableProvider (msg : String)
deriving Repr, DecidableEq

/-- Observable calls the router makes to its collaborators while serving
one request: an invocation of the prompt-decoration hook
(`get_system_context().get_system_prompt(prompt)`) and an invocation of
a provider's generate (or generate-stream) operation with the decorated
prompt it received. -/
inductive Event where
  | hookCall (user_prompt : String)
  | attempt (provider_name : String) (prompt_used : String)
deriving Repr, DecidableEq

/-- Names of the providers invoked in a trace, in order. -/
def attempted_names (t : List Event) : List String :=
  t.filterMap fun e => match e with
    | .attempt n _ => some n
    | _ => none

/-- Decorated prompts passed to provider invocations in a trace. -/
def attempt_prompts (t : List Event) : List String :=
  t.filterMap fun e => match e with
    | .attempt _ q => some q
    | _ => none

/-- Raw prompts passed to the prompt-decoration hook in a trace. -/
def hook_prompts (t : List Event) : List String :=
  t.filterMap fun e => match e with
    | .hookCall q => some q
    | _ => none

/-- Candidate construction of `route_request`:
`[get_provider(n) for n in seq if get_provider(n) and get_provider(n).enabled]`. -/
def resolve_candidates (pm : ProviderMap) (seq : List String) : List Provider :=
  seq.filterMap fun n =>
    match get_provider pm n with
    | some p => if p.enabled then some p else none
    | none => none

/-- The error message of a failed generate call (`""` for a success;
only used under a failure hypothesis). -/
def errMsg : Except String Dict → String
  | .error e => e
  | .ok _ => ""

/-- The two trace events one loop iteration of the router produces: the
hook call, then the provider invocation with the decorated prompt. -/
def attempt_block (ctx : IdentityData) (prompt : String) (p : Provider) :
    List Event :=
  [Event.hookCall prompt, Event.attempt p.name (get_system_prompt ctx prompt)]

/-- The failover loop of `route_request`: try each provider in order,
return the first success with the `provider` field overwritten, collect
one `"{name}: {e}"` reason per failure, and raise the aggregate
`NoAvailableProviderError` when all fail. -/
def attemptLoop (ctx : IdentityData) (prompt : String) :
    List Provider → List String → List Event →
    List Event × Except RouteError Dict
  | [], errors, trace =>
      (trace, .error (.noAvailableProvider
        ("All providers failed. Errors: " ++ String.intercalate "; " errors)))
  | p :: rest, errors, trace =>
      let full_prompt := get_system_prompt ctx prompt
      let trace1 := trace ++ attempt_block ctx prompt p
      match p.generate full_prompt with
      | .ok response => (trace1, .ok (dictSet response "provider" p.name))
      | .error e =>
          attemptLoop ctx prompt rest (errors ++ [p.name ++ ": " ++ e]) trace1

/-- `ModelRouter.route_request`, instrumented with the trace of hook and
provider calls it makes.  Returns the response dict or the typed
failure. -/
def route_request (rules : RoutingRules) (pm : ProviderMap)
    (ctx : IdentityData) (prompt task_type : String) :
    List Event × Except RouteError Dict :=
  match resolve_sequence rules task_type with
  | none =>
      ([], .error (.valueError
        ("Task type '" ++ task_type ++ "' is not a routable LLM task.")))
  | some seq =>
      if seq.isEmpty then
        ([], .error (.valueError
          ("Task type '" ++ task_type ++ "' is not a routable LLM task.")))
      else
        let providers_to_try := resolve_candidates pm seq
        if providers_to_try.isEmpty then
          ([], .error (.noAvailableProvider
            "No enabled LLM providers found in configuration for the requested task."))
        else
          attemptLoop ctx prompt providers_to_try [] []

/-- How one invocation of `route_request_stream` ends after the chunks
already yielded: normal termination, or a raised typed failure. -/
inductive StreamEnd where
  | completed
  | failed (e : RouteError)
deriving Repr, DecidableEq

/-- Candidate construction of `route_request_stream`:
`[p for p in (get_provider(n) for n in seq) if p and p.enabled and p.supports_streaming]`. -/
def resolve_stream_candidates (pm : ProviderMap) (seq : List String) :
    List Provider :=
  seq.filterMap fun n =>
    match get_provider pm n with
    | some p =>
        if p.enabled && p.supports_streaming then some p else none
    | none => none

/-- Each chunk is re-emitted as `chunk.copy()` with the `provider` field
set to the serving provider's name. -/
def annotate_chunks (p : Provider) (cs : List Dict) : List Dict :=
  cs.map (fun c => dictSet c "provider" p.name)

/-- The failover loop of `route_request_stream`.  The chunks a provider
yields before its generator raises have already been forwarded to the
caller, so they accumulate in the output even when the loop then moves
on to the next candidate; the loop stops at the first provider whose
stream terminates without raising. -/
def streamLoop (ctx : IdentityData) (prompt : String) :
    List Provider → List String → List Event → List Dict →
    List Event × List Dict × StreamEnd
  | [], errors, trace, out =>
      (trace, out, .failed (.noAvailableProvider
        ("All streaming providers failed. Errors: "
          ++ String.intercalate "; " errors)))
  | p :: rest, errors, trace, out =>
      let full_prompt := get_system_prompt ctx prompt
      let outcome := p.generate_stream full_prompt
      let trace1 := trace ++ attempt_block ctx prompt p
      let out1 := out ++ annotate_chunks p outcome.chunks
      match outcome.raisesAfter with
      | none => (trace1, out1, .completed)
      | some e =>
          streamLoop ctx prompt rest (errors ++ [p.name ++ ": " ++ e]) trace1 out1

/-- `ModelRouter.route_request_stream`, instrumented with the trace of
hook and provider calls.  Returns the chunks yielded to the caller and
how the generator ends. -/
def route_request_stream (rules : RoutingRules) (pm : ProviderMap)
    (ctx : IdentityData) (prompt task_type : String) :
    List Event × List Dict × StreamEnd :=
  match resolve_sequence rules task_type with
  | none =>
      ([], [], .failed (.valueError
        ("Task type '" ++ task_type ++ "' is not a routable LLM task.")))
  | some seq =>
      if seq.isEmpty then
        ([], [], .failed (.valueError
          ("Task type '" ++ task_type ++ "' is not a routable LLM task.")))
      else
        let providers_to_try := resolve_stream_candidates pm seq
        if providers_to_try.isEmpty then
          ([], [], .failed (.noAvailableProvider
            "No enabled, streaming-capable LLM providers found."))
        else
          streamLoop ctx prompt providers_to_try [] [] []

/-! ## Health aggregation (`ModelRouter.get_provider_statuses`) -/

/-- One per-provider record of a health aggregation run.  The wall-clock
timestamp and the metadata snapshot of the source record are not
modelled. -/
structure HealthRecord where
  name : String
  status : String
  details : String
deriving Repr, DecidableEq

/-- The summary object of `get_provider_statuses`. -/
structure Summary where
  total_providers : Nat
  enabled : Nat
  disabled : Nat
  errors : Nat
deriving Repr, DecidableEq

/-- The record built for one enabled provider from its probe outcome:
an exception becomes status `Error` with the message in the details; a
dict is read through `get("status", "Unknown")` and `get("details", "")`;
anything else leaves the defensive defaults in place. -/
def record_for (p : Provider) : HealthRecord :=
  match p.check_health with
  | .raises msg =>
      { name := p.name, status := "Error"
        details := "Health check failed: " ++ msg }
  | .returnsDict d =>
      { name := p.name, status := (dictGet d "status").getD "Unknown"
        details := (dictGet d "details").getD "" }
  | .returnsOther =>
      { name := p.name, status := "Unknown"
        details := "Health check did not return a valid status." }

/-- The record built for a disabled provider, with no probe invoked. -/
def disabled_record (p : Provider) : HealthRecord :=
  { name := p.name, status := "Disabled"
    details := "Provider is disabled in configuration." }

/-- `ModelRouter.get_provider_statuses`: probes every enabled provider
(each probe wrapped so an exception becomes an `Error` record), appends
a `Disabled` record per disabled provider, and computes the summary from
the final record list. -/
def get_provider_statuses (pm : ProviderMap) : Summary × List HealthRecord :=
  let providers := pm.map (·.2)
  let enabled_providers := providers.filter (·.enabled)
  let disabled_providers := providers.filter (fun p => !p.enabled)
  let records := enabled_providers.map record_for
      ++ disabled_providers.map disabled_record
  ({ total_providers := pm.length
     enabled := enabled_providers.length
     disabled := disabled_providers.length
     errors := (records.filter (fun s => s.status == "Error")).length },
   records)

/-! ## Provider loading (`ProviderManager._load_providers`) -/

/-- One entry of the `providers` list in `config/providers.yaml`; only
the keys `_load_providers` inspects are modelled.  `none` means the key
is absent (`enabled` then defaults to true). -/
structure ProviderConfigEntry where
  name : Option String := none
  ptype : Option String := none
  enabled : Option Bool := none

/-- The behaviour of a successfully constructed provider instance.  Its
registry name and `enabled` flag come from the configuration entry;
everything else is the concrete class's behaviour. -/
structure ProviderImpl where
  supports_streaming : Bool
  generate : String → Except String Dict
  generate_stream : String → StreamOutcome
  check_health : HealthOutcome

/-- Python dict assignment on the registry map:
`self.providers[name] = instance`. -/
def updateProviders (pm : ProviderMap) (k : String) (v : Provider) :
    ProviderMap :=
  if pm.any (fun kv => kv.1 == k) then
    pm.map (fun kv => if kv.1 == k then (k, v) else kv)
  else
    pm ++ [(k, v)]

/-- The loop body of `_load_providers` over the configuration entries.
`construct t e` is the outcome of instantiating the provider class
registered for known type `t` on entry `e` (`none` when the constructor
raises, which is caught and skipped).  Entries with a falsy name or
type, with an unknown type, or explicitly disabled are skipped. -/
def load_providers_from (construct : String → ProviderConfigEntry →
    Option ProviderImpl) :
    List ProviderConfigEntry → ProviderMap → ProviderMap
  | [], pm => pm
  | e :: rest, pm =>
      match e.name, e.ptype with
      | some n, some t =>
          if n == "" || t == "" then
            load_providers_from construct rest pm
          else if e.enabled.getD true then
            if t == "gemini" || t == "ollama" then
              match construct t e with
              | some impl =>
                  load_providers_from construct rest (updateProviders pm n
                    { name := n, enabled := e.enabled.getD true
                      supports_streaming := impl.supports_streaming
                      generate := impl.generate
                      generate_stream := impl.generate_stream
                      check_health := impl.check_health })
              | none => load_providers_from construct rest pm
            else
              load_providers_from construct rest pm
          else
            load_providers_from construct rest pm
      | _, _ => load_providers_from construct rest pm

/-- `ProviderManager._load_providers` starting from the empty registry. -/
def load_providers (construct : String → ProviderConfigEntry →
    Option ProviderImpl) (entries : List ProviderConfigEntry) : ProviderMap :=
  load_providers_from construct entries []

/-! ## Concrete providers (`GeminiProvider`, `OllamaProvider`) -/

/-- Environment one `GeminiProvider.check_health` call observes: whether
`self.api_key` is truthy, and the outcome of listing models (an
exception message, or the names of the available models). -/
structure GeminiHealthEnv where
  api_key_truthy : Bool
  list_models : Except String (List String)
  model_name : String

/-- `GeminiProvider.check_health`: `Error` without an API key, `Error`
when listing models raises, `Active` when some listed model name ends
with the configured model name, `Error` otherwise. -/
def gemini_check_health (e : GeminiHealthEnv) : Dict :=
  if !e.api_key_truthy then
    [("status", "Error"), ("details", "API key is not configured.")]
  else
    match e.list_models with
    | .error _ =>
        [("status", "Error"),
         ("details", "Failed to connect to Gemini API. Check API key and network.")]
    | .ok models =>
        if models.any (fun m => m.endsWith e.model_name) then
          [("status", "Active"),
           ("details", "Connected to Gemini. Model '" ++ e.model_name
             ++ "' is available.")]
        else
          [("status", "Error"),
           ("details", "Connected to Gemini, but model '" ++ e.model_name
             ++ "' not found.")]

/-- Environment one `OllamaProvider.check_health` call observes: the
base URL is falsy, the GET of `/api/tags` succeeds, it raises an
`httpx.RequestError` (connectivity), or it raises some other
exception. -/
inductive OllamaHealthEnv where
  | noBaseUrl
  | requestOk
  | requestError
  | otherException
deriving Repr, DecidableEq

/-- `OllamaProvider.check_health`: `Error` without a base URL, `Active`
on a successful probe, `Offline` for connectivity errors, `Error` for
any other exception. -/
def ollama_check_health (base_url : String) : OllamaHealthEnv → Dict
  | .noBaseUrl =>
      [("status", "Error"), ("details", "Ollama API URL is not configured.")]
  | .requestOk =>
      [("status", "Active"),
       ("details", "Connected to Ollama at " ++ base_url ++ ".")]
  | .requestError =>
      [("status", "Offline"),
       ("details", "Could not connect to Ollama at " ++ base_url
         ++ ". The service appears to be offline.")]
  | .otherException =>
      [("status", "Error"),
       ("details", "Failed to connect to Ollama at " ++ base_url
         ++ ". Is it running?")]

/-- Behaviour of the backend stream a `GeminiProvider` consumes: the
chunk texts produced, then `failure = some msg` when iteration (or the
initial call opening the stream) raises `msg`, `none` when it completes
normally. -/
structure GeminiBackendStream where
  tokens : List String
  failure : Option String
deriving Repr, DecidableEq

/-- `GeminiProvider.generate_stream_async`: yields one `stream_chunk`
per backend chunk; on an exception, yields one final error-tagged chunk
and terminates instead of raising. -/
def gemini_generate_stream (name : String) (b : GeminiBackendStream) :
    List Dict :=
  b.tokens.map (fun t => [("type", "stream_chunk"), ("token", t)])
    ++ match b.failure with
       | some msg =>
           [[("type", "error"),
             ("detail", "Error from " ++ name ++ ": " ++ msg)]]
       | none => []

/-- Behaviour of the HTTP line stream an `OllamaProvider` consumes:
each received non-empty line either parses to a JSON object whose
`response` field is the given token (`some tok`) or fails to parse
(`none`); then `failure = some msg` when the request or iteration
raises `msg`. -/
structure OllamaBackendStream where
  lines : List (Option String)
  failure : Option String
deriving Repr, DecidableEq

/-- `OllamaProvider.generate_stream_async`: yields one `stream_chunk`
per parsed non-empty token, skipping unparsable lines and empty tokens;
on an exception, yields one final error-tagged chunk and terminates
instead of raising. -/
def ollama_generate_stream (name : String) (b : OllamaBackendStream) :
    List Dict :=
  ((b.lines.filterMap id).filter (fun t => t ≠ "")).map
      (fun t => [("type", "stream_chunk"), ("token", t)])
    ++ match b.failure with
       | some msg =>
           [[("type", "error"),
             ("detail", "Error from " ++ name ++ ": " ++ msg)]]
       | none => []

/-- Whether a stream chunk is error-tagged (`{"type": "error", ...}`). -/
def is_error_chunk (c : Dict) : Bool :=
  dictGet c "type" == some "error"

/-- The closed status domain the specification asserts for health
records. -/
def closed_status_set : List String :=
  ["Active", "Offline", "Error", "Disabled", "Unknown"]

/-- The trace a run of the failover loop produces when it attempts
exactly the providers in `ps`, in order. -/
def attempt_blocks (ctx : IdentityData) (prompt : String) :
    List Provider → List Event
  | [] => []
  | p :: ps => attempt_block ctx prompt p ++ attempt_blocks ctx prompt ps

/-- The chunks forwarded to the caller when the streaming loop consumes
the streams of the providers in `ps`, in order. -/
def stream_outputs (ctx : IdentityData) (prompt : String) :
    List Provider → List Dict
  | [] => []
  | p :: ps =>
      annotate_chunks p (p.generate_stream (get_system_prompt ctx prompt)).chunks
        ++ stream_outputs ctx prompt ps

/-- The intended call discipline of the prompt-decoration hook over a
request's trace: the trace consists of hook-then-invoke blocks, so the
hook is called exactly once per provider attempt (immediately before
it), always on the raw user prompt, and every provider invocation
receives the same decorated prompt. -/
def trace_hook_discipline (ctx : IdentityData) (prompt : String)
    (t : List Event) : Prop :=
  (∃ qs : List Provider, t = attempt_blocks ctx prompt qs) ∧
  (hook_prompts t).length = (attempted_names t).length ∧
  hook_prompts t = List.replicate (attempted_names t).length prompt ∧
  attempt_prompts t
    = List.replicate (attempted_names t).length (get_system_prompt ctx prompt)

/-! ## Concrete fixtures used by witnesses and counterexamples -/

/-- An identity configuration with every key absent: the decoration hook
then returns the user prompt unchanged. -/
def ctx0 : IdentityData := {}

/-- A backend response that already carries its own `provider` field. -/
def okDict : Dict := [("text", "OK"), ("provider", "backend-internal")]

/-- A stub provider whose every operation succeeds, answering `resp`. -/
def stub_ok (nm : String) (resp : Dict) : Provider :=
  { name := nm, enabled := true, supports_streaming := true
    generate := fun _ => .ok resp
    generate_stream := fun _ => { chunks := [resp], raisesAfter := none }
    check_health := .returnsDict [("status", "Active"), ("details", "up")] }

/-- A stub provider whose every operation fails with message `msg`; its
stream raises before yielding any chunk. -/
def stub_fail (nm msg : String) : Provider :=
  { name := nm, enabled := true, supports_streaming := true
    generate := fun _ => .error msg
    generate_stream := fun _ => { chunks := [], raisesAfter := some msg }
    check_health := .raises msg }

/-- A stub provider whose stream yields the given chunks and then
raises. -/
def stub_midstream_fail (nm msg : String) (cs : List Dict) : Provider :=
  { name := nm, enabled := true, supports_streaming := true
    generate := fun _ => .error msg
    generate_stream := fun _ => { chunks := cs, raisesAfter := some msg }
    check_health := .raises msg }

/-- Failing provider `p1`. -/
def pFail1 : Provider := stub_fail "p1" "boom1"

/-- Succeeding provider `p2`. -/
def pOk2 : Provider := stub_ok "p2" okDict

/-- Failing provider `p3`. -/
def pFail3 : Provider := stub_fail "p3" "boom3"

/-- A routing table with an explicit entry for `summarize` and a
default. -/
def rules0 : RoutingRules :=
  [("summarize", ["p1", "p2"]), ("__default__", ["p2"])]

/-- A registry holding the failing `p1` and the succeeding `p2`. -/
def pm0 : ProviderMap := [("p1", pFail1), ("p2", pOk2)]

/-- A routing table whose default entry names two failing providers. -/
def rulesF : RoutingRules := [("__default__", ["p1", "p3"])]

/-- A registry holding only failing providers. -/
def pmF : ProviderMap := [("p1", pFail1), ("p3", pFail3)]

/-- A stream chunk carrying token `A`. -/
def chunkA : Dict := [("type", "stream_chunk"), ("token", "A")]

/-- A stream chunk carrying token `B`. -/
def chunkB : Dict := [("type", "stream_chunk"), ("token", "B")]

/-- Streaming provider `pA`: yields one chunk, then its stream raises. -/
def pMid : Provider := stub_midstream_fail "pA" "mid-boom" [chunkA]

/-- Streaming provider `pB`: yields one chunk and completes. -/
def pStreamOk : Provider := stub_ok "pB" chunkB

/-- A routing table whose default entry is the two streaming
providers. -/
def rulesS : RoutingRules := [("__default__", ["pA", "pB"])]

/-- A registry holding `pA` (mid-stream failure) and `pB` (clean). -/
def pmS : ProviderMap := [("pA", pMid), ("pB", pStreamOk)]

/-- A probe outcome the repository can actually produce: the probe
raised, returned a non-dict value, or returned a dict built by one of
the two concrete providers' `check_health` implementations. -/
def concrete_probe_outcome (o : HealthOutcome) : Prop :=
  match o with
  | .raises _ => True
  | .returnsOther => True
  | .returnsDict d =>
      (∃ e, d = gemini_check_health e) ∨
      (∃ u e, d = ollama_check_health u e)

/-- Provider `h3`, whose health probe raises. -/
def pCrash : Provider := stub_fail "h3" "probe-crash"

/-- A registry of three enabled providers: two with healthy probes, one
whose probe raises. -/
def pmH : ProviderMap :=
  [("h1", stub_ok "h1" okDict), ("h2", stub_ok "h2" okDict), ("h3", pCrash)]

/-- A Gemini health environment where the configured model is listed. -/
def gemEnvOk : GeminiHealthEnv :=
  { api_key_truthy := true
    list_models := .ok ["models/gemini-1.5-flash-latest"]
    model_name := "gemini-1.5-flash-latest" }

/-- A provider whose probe returns a Gemini-style health dict. -/
def pGem : Provider :=
  { name := "g", enabled := true, supports_streaming := true
    generate := fun _ => .error "unused"
    generate_stream := fun _ => { chunks := [], raisesAfter := none }
    check_health := .returnsDict (gemini_check_health gemEnvOk) }

/-- A registry holding only `pGem`. -/
def pmG : ProviderMap := [("g", pGem)]

/-- A provider whose probe returns a dict with an out-of-domain status
value. -/
def pBanana : Provider :=
  { name := "pX", enabled := true, supports_streaming := false
    generate := fun _ => .error "x"
    generate_stream := fun _ => { chunks := [], raisesAfter := none }
    check_health := .returnsDict [("status", "Banana")] }

/-- A registry holding only `pBanana`. -/
def pmB : ProviderMap := [("pX", pBanana)]

/-- A trivial constructed-provider behaviour. -/
def implTriv : ProviderImpl :=
  { supports_streaming := true
    generate := fun _ => .error "x"
    generate_stream := fun _ => { chunks := [], raisesAfter := none }
    check_health := .returnsOther }

/-- A constructor that always succeeds with `implTriv`. -/
def constructTriv : String → ProviderConfigEntry → Option ProviderImpl :=
  fun _ _ => some implTriv

/-- A provider configuration whose single entry is explicitly
disabled. -/
def entriesD : List ProviderConfigEntry :=
  [{ name := some "p1", ptype := some "gemini", enabled := some false }]

/-! ## Basic lemmas -/

theorem dictGet_dictSet (d : Dict) (k v : String) :
    dictGet (dictSet d k v) k = some v := by
  induction d with
  | nil => simp [dictSet, dictGet]
  | cons kv d ih =>
      by_cases hkv : kv.1 = k
      · have h1 : dictSet (kv :: d) k v
            = (k, v) :: d.map (fun kv => if kv.1 == k then (k, v) else kv) := by
          simp [dictSet, hkv]
        rw [h1]
        unfold dictGet
        rw [List.find?_cons_of_pos _ (by simp)]
        rfl
      · have h1 : dictSet (kv :: d) k v = kv :: dictSet d k v := by
          by_cases hd : d.any (fun kv => kv.1 == k) <;>
            simp [dictSet, hkv, hd]
        rw [h1]
        unfold dictGet
        rw [List.find?_cons_of_neg _ (by simp [hkv])]
        exact ih

theorem lookupRule_singleton (k : String) (v : List String) (t : String) :
    lookupRule [(k, v)] t = if k = t then some v else none := by
  by_cases h : k = t
  · subst h
    simp [lookupRule]
  · have hb : (k == t) = false := by simpa using h
    simp [lookupRule, List.find?, hb, h]

theorem attemptLoop_all_fail (ctx : IdentityData) (prompt : String) :
    ∀ (ps : List Provider) (errors : List String) (trace : List Event),
    (∀ p ∈ ps, ∃ e, p.generate (get_system_prompt ctx prompt) = .error e) →
    attemptLoop ctx prompt ps errors trace =
      (trace ++ attempt_blocks ctx prompt ps,
       .error (.noAvailableProvider
        ("All providers failed. Errors: " ++ String.intercalate "; "
          (errors ++ ps.map (fun p =>
            p.name ++ ": " ++ errMsg (p.generate (get_system_prompt ctx prompt)))))))
  | [], errors, trace, _ => by
      simp [attemptLoop, attempt_blocks]
  | p :: ps, errors, trace, h => by
      obtain ⟨e, he⟩ := h p (by simp)
      have ih := attemptLoop_all_fail ctx prompt ps
        (errors ++ [p.name ++ ": " ++ e]) (trace ++ attempt_block ctx prompt p)
        (fun q hq => h q (by simp [hq]))
      simp only [attemptLoop, he] at ih ⊢
      rw [ih]
      simp [attempt_blocks, errMsg, he, List.append_assoc]

theorem attemptLoop_first_success (ctx : IdentityData) (prompt : String)
    (su : Provider) (rest : List Provider) (r : Dict)
    (hok : su.generate (get_system_prompt ctx prompt) = .ok r) :
    ∀ (failed : List Provider) (errors : List String) (trace : List Event),
    (∀ p ∈ failed, ∃ e, p.generate (get_system_prompt ctx prompt) = .error e) →
    attemptLoop ctx prompt (failed ++ su :: rest) errors trace =
      (trace ++ attempt_blocks ctx prompt (failed ++ [su]),
       .ok (dictSet r "provider" su.name))
  | [], errors, trace, _ => by
      simp [attemptLoop, hok, attempt_blocks]
  | p :: failed, errors, trace, h => by
      obtain ⟨e, he⟩ := h p (by simp)
      have ih := attemptLoop_first_success ctx prompt su rest r hok failed
        (errors ++ [p.name ++ ": " ++ e]) (trace ++ attempt_block ctx prompt p)
        (fun q hq => h q (by simp [hq]))
      simp only [List.cons_append, attemptLoop, he]
      exact ih.trans (by simp [attempt_blocks, List.append_assoc])

theorem streamLoop_first_success (ctx : IdentityData) (prompt : String)
    (good : Provider) (rest : List Provider)
    (hgood : (good.generate_stream (get_system_prompt ctx prompt)).raisesAfter
      = none) :
    ∀ (bad : List Provider) (errors : List String) (trace : List Event)
      (out : List Dict),
    (∀ p ∈ bad, ∃ e,
      (p.generate_stream (get_system_prompt ctx prompt)).raisesAfter = some e) →
    streamLoop ctx prompt (bad ++ good :: rest) errors trace out =
      (trace ++ attempt_blocks ctx prompt (bad ++ [good]),
       out ++ stream_outputs ctx prompt (bad ++ [good]),
       .completed)
  | [], errors, trace, out, _ => by
      simp [streamLoop, hgood, attempt_blocks, stream_outputs]
  | p :: bad, errors, trace, out, h => by
      obtain ⟨e, he⟩ := h p (by simp)
      have ih := streamLoop_first_success ctx prompt good rest hgood bad
        (errors ++ [p.name ++ ": " ++ e])
        (trace ++ attempt_block ctx prompt p)
        (out ++ annotate_chunks p
          (p.generate_stream (get_system_prompt ctx prompt)).chunks)
        (fun q hq => h q (by simp [hq]))
      simp only [List.cons_append, streamLoop, he]
      exact ih.trans (by simp [attempt_blocks, stream_outputs, List.append_assoc])

theorem attemptLoop_trace_shape (ctx : IdentityData) (prompt : String) :
    ∀ (ps : List Provider) (errors : List String) (trace : List Event),
    ∃ qs : List Provider,
      (attemptLoop ctx prompt ps errors trace).1
        = trace ++ attempt_blocks ctx prompt qs
  | [], _, trace => ⟨[], by simp [attemptLoop, attempt_blocks]⟩
  | p :: ps, errors, trace => by
      cases hg : p.generate (get_system_prompt ctx prompt) with
      | ok r =>
          exact ⟨[p], by simp [attemptLoop, hg, attempt_blocks]⟩
      | error e =>
          obtain ⟨qs, hqs⟩ := attemptLoop_trace_shape ctx prompt ps
            (errors ++ [p.name ++ ": " ++ e])
            (trace ++ attempt_block ctx prompt p)
          refine ⟨p :: qs, ?_⟩
          simp only [attemptLoop, hg]
          exact hqs.trans (by simp [attempt_blocks, List.append_assoc])

theorem streamLoop_trace_shape (ctx : IdentityData) (prompt : String) :
    ∀ (ps : List Provider) (errors : List String) (trace : List Event)
      (out : List Dict),
    ∃ qs : List Provider,
      (streamLoop ctx prompt ps errors trace out).1
        = trace ++ attempt_blocks ctx prompt qs
  | [], _, trace, _ => ⟨[], by simp [streamLoop, attempt_blocks]⟩
  | p :: ps, errors, trace, out => by
      cases hr : (p.generate_stream (get_system_prompt ctx prompt)).raisesAfter with
      | none =>
          exact ⟨[p], by simp [streamLoop, hr, attempt_blocks]⟩
      | some e =>
          obtain ⟨qs, hqs⟩ := streamLoop_trace_shape ctx prompt ps
            (errors ++ [p.name ++ ": " ++ e])
            (trace ++ attempt_block ctx prompt p)
            (out ++ annotate_chunks p
              (p.generate_stream (get_system_prompt ctx prompt)).chunks)
          refine ⟨p :: qs, ?_⟩
          simp only [streamLoop, hr]
          exact hqs.trans (by simp [attempt_blocks, List.append_assoc])

theorem hook_prompts_append (s t : List Event) :
    hook_prompts (s ++ t) = hook_prompts s ++ hook_prompts t := by
  simp [hook_prompts]

theorem attempted_names_append (s t : List Event) :
    attempted_names (s ++ t) = attempted_names s ++ attempted_names t := by
  simp [attempted_names]

theorem attempt_prompts_append (s t : List Event) :
    attempt_prompts (s ++ t) = attempt_prompts s ++ attempt_prompts t := by
  simp [attempt_prompts]

theorem hook_prompts_attempt_blocks (ctx : IdentityData) (prompt : String) :
    ∀ qs : List Provider,
    hook_prompts (attempt_blocks ctx prompt qs) = List.replicate qs.length prompt
  | [] => rfl
  | q :: qs => by
      show hook_prompts (attempt_block ctx prompt q
        ++ attempt_blocks ctx prompt qs) = _
      rw [hook_prompts_append, hook_prompts_attempt_blocks ctx prompt qs]
      rfl

theorem attempted_names_attempt_blocks (ctx : IdentityData) (prompt : String) :
    ∀ qs : List Provider,
    attempted_names (attempt_blocks ctx prompt qs) = qs.map (·.name)
  | [] => rfl
  | q :: qs => by
      show attempted_names (attempt_block ctx prompt q
        ++ attempt_blocks ctx prompt qs) = _
      rw [attempted_names_append, attempted_names_attempt_blocks ctx prompt qs]
      rfl

theorem attempt_prompts_attempt_blocks (ctx : IdentityData) (prompt : String) :
    ∀ qs : List Provider,
    attempt_prompts (attempt_blocks ctx prompt qs)
      = List.replicate qs.length (get_system_prompt ctx prompt)
  | [] => rfl
  | q :: qs => by
      show attempt_prompts (attempt_block ctx prompt q
        ++ attempt_blocks ctx prompt qs) = _
      rw [attempt_prompts_append, attempt_prompts_attempt_blocks ctx prompt qs]
      rfl

theorem trace_hook_discipline_blocks (ctx : IdentityData) (prompt : String)
    (qs : List Provider) :
    trace_hook_discipline ctx prompt (attempt_blocks ctx prompt qs) := by
  refine ⟨⟨qs, rfl⟩, ?_, ?_, ?_⟩ <;>
    simp [hook_prompts_attempt_blocks, attempted_names_attempt_blocks,
      attempt_prompts_attempt_blocks]

theorem route_request_eq_attemptLoop (rules : RoutingRules)
    (pm : ProviderMap) (ctx : IdentityData) (prompt task_type : String)
    (seq : List String)
    (hres : resolve_sequence rules task_type = some seq)
    (hne : resolve_candidates pm seq ≠ []) :
    route_request rules pm ctx prompt task_type
      = attemptLoop ctx prompt (resolve_candidates pm seq) [] [] := by
  have hseqne : seq ≠ [] := by
    intro h
    subst h
    exact hne (by simp [resolve_candidates])
  obtain ⟨a, as, rfl⟩ := List.exists_cons_of_ne_nil hseqne
  obtain ⟨p, ps, hcand⟩ := List.exists_cons_of_ne_nil hne
  simp [route_request, hres, hcand]

theorem route_request_stream_eq_streamLoop (rules : RoutingRules)
    (pm : ProviderMap) (ctx : IdentityData) (prompt task_type : String)
    (seq : List String)
    (hres : resolve_sequence rules task_type = some seq)
    (hne : resolve_stream_candidates pm seq ≠ []) :
    route_request_stream rules pm ctx prompt task_type
      = streamLoop ctx prompt (resolve_stream_candidates pm seq) [] [] [] := by
  have hseqne : seq ≠ [] := by
    intro h
    subst h
    exact hne (by simp [resolve_stream_candidates])
  obtain ⟨a, as, rfl⟩ := List.exists_cons_of_ne_nil hseqne
  obtain ⟨p, ps, hcand⟩ := List.exists_cons_of_ne_nil hne
  simp [route_request_stream, hres, hcand]

theorem route_request_trace_shape (rules : RoutingRules) (pm : ProviderMap)
    (ctx : IdentityData) (prompt task_type : String) :
    ∃ qs : List Provider,
      (route_request rules pm ctx prompt task_type).1
        = attempt_blocks ctx prompt qs := by
  unfold route_request
  split
  · exact ⟨[], rfl⟩
  · split
    · exact ⟨[], rfl⟩
    · dsimp only
      split
      · exact ⟨[], rfl⟩
      · obtain ⟨qs, h⟩ := attemptLoop_trace_shape ctx prompt _ [] []
        exact ⟨qs, by simpa using h⟩

theorem route_request_stream_trace_shape (rules : RoutingRules)
    (pm : ProviderMap) (ctx : IdentityData) (prompt task_type : String) :
    ∃ qs : List Provider,
      (route_request_stream rules pm ctx prompt task_type).1
        = attempt_blocks ctx prompt qs := by
  unfold route_request_stream
  split
  · exact ⟨[], rfl⟩
  · split
    · exact ⟨[], rfl⟩
    · dsimp only
      split
      · exact ⟨[], rfl⟩
      · obtain ⟨qs, h⟩ := streamLoop_trace_shape ctx prompt _ [] [] []
        exact ⟨qs, by simpa using h⟩

/-! ## Claim theorems -/

/-- C1: for every task type with an explicit routing entry and every
prompt, `route_request` attempts the resolved enabled candidates in the
order given by the routing table, stops at the first candidate whose
generate call succeeds, returns that candidate's result annotated with
that candidate's provider name, and never invokes any candidate after
the first succeeding one. -/
theorem route_request_first_success_wins
    (rules : RoutingRules) (pm : ProviderMap) (ctx : IdentityData)
    (prompt task_type : String) (seq : List String)
    (failed : List Provider) (su : Provider) (rest : List Provider) (r : Dict)
    (hexplicit : lookupRule rules task_type = some seq)
    (hsplit : resolve_candidates pm seq = failed ++ su :: rest)
    (hfail : ∀ p ∈ failed, ∃ e,
      p.generate (get_system_prompt ctx prompt) = .error e)
    (hok : su.generate (get_system_prompt ctx prompt) = .ok r) :
    route_request rules pm ctx prompt task_type
      = (attempt_blocks ctx prompt (failed ++ [su]),
         .ok (dictSet r "provider" su.name)) ∧
    attempted_names (route_request rules pm ctx prompt task_type).1
      = (failed ++ [su]).map (·.name) := by
  have hres : resolve_sequence rules task_type = some seq := by
    simp [resolve_sequence, hexplicit]
  have hne : resolve_candidates pm seq ≠ [] := by
    rw [hsplit]
    simp
  rw [route_request_eq_attemptLoop rules pm ctx prompt task_type seq hres hne,
    hsplit, attemptLoop_first_success ctx prompt su rest r hok failed [] [] hfail]
  exact ⟨by simp, by simp [attempted_names_attempt_blocks]⟩

/-- Witness for C1 at a concrete routing table, registry and prompt:
`p1` fails, `p2` succeeds, and the call returns `p2`'s response tagged
`provider = p2` after attempting exactly `p1` then `p2`. -/
theorem route_request_first_success_wins_witness :
    lookupRule rules0 "summarize" = some ["p1", "p2"] ∧
    resolve_candidates pm0 ["p1", "p2"] = [pFail1] ++ pOk2 :: [] ∧
    (∀ p ∈ [pFail1], ∃ e,
      p.generate (get_system_prompt ctx0 "hi") = .error e) ∧
    pOk2.generate (get_system_prompt ctx0 "hi") = .ok okDict ∧
    (route_request rules0 pm0 ctx0 "hi" "summarize"
      = (attempt_blocks ctx0 "hi" ([pFail1] ++ [pOk2]),
         .ok (dictSet okDict "provider" pOk2.name)) ∧
     attempted_names (route_request rules0 pm0 ctx0 "hi" "summarize").1
      = ([pFail1] ++ [pOk2]).map (·.name)) := by
  have hf : ∀ p ∈ [pFail1], ∃ e,
      p.generate (get_system_prompt ctx0 "hi") = .error e := by
    intro p hp
    simp only [List.mem_singleton] at hp
    subst hp
    exact ⟨"boom1", rfl⟩
  exact ⟨rfl, rfl, hf, rfl,
    route_request_first_success_wins rules0 pm0 ctx0 "hi" "summarize"
      ["p1", "p2"] [pFail1] pOk2 [] okDict rfl rfl hf rfl⟩

/-- C10: on a successful `route_request`, the `provider` field of the
returned dict equals the registry name of the succeeding candidate,
even when the backend's own response dict already carried a different
`provider` value: the router unconditionally overwrites it. -/
theorem route_request_overwrites_provider_field
    (rules : RoutingRules) (pm : ProviderMap) (ctx : IdentityData)
    (prompt task_type : String) (seq : List String)
    (failed : List Provider) (su : Provider) (rest : List Provider)
    (r : Dict) (backend_value : String)
    (hres : resolve_sequence rules task_type = some seq)
    (hsplit : resolve_candidates pm seq = failed ++ su :: rest)
    (hfail : ∀ p ∈ failed, ∃ e,
      p.generate (get_system_prompt ctx prompt) = .error e)
    (hok : su.generate (get_system_prompt ctx prompt) = .ok r)
    (hprov : dictGet r "provider" = some backend_value) :
    ∃ d, (route_request rules pm ctx prompt task_type).2 = .ok d ∧
      dictGet d "provider" = some su.name := by
  have hne : resolve_candidates pm seq ≠ [] := by
    rw [hsplit]
    simp
  rw [route_request_eq_attemptLoop rules pm ctx prompt task_type seq hres hne,
    hsplit, attemptLoop_first_success ctx prompt su rest r hok failed [] [] hfail]
  exact ⟨dictSet r "provider" su.name, rfl, dictGet_dictSet r "provider" su.name⟩

/-- Witness for C10: `p2`'s backend response carries
`provider = backend-internal`, yet the returned dict says
`provider = p2`. -/
theorem route_request_overwrites_provider_field_witness :
    resolve_sequence rules0 "summarize" = some ["p1", "p2"] ∧
    resolve_candidates pm0 ["p1", "p2"] = [pFail1] ++ pOk2 :: [] ∧
    (∀ p ∈ [pFail1], ∃ e,
      p.generate (get_system_prompt ctx0 "hi") = .error e) ∧
    pOk2.generate (get_system_prompt ctx0 "hi") = .ok okDict ∧
    dictGet okDict "provider" = some "backend-internal" ∧
    (∃ d, (route_request rules0 pm0 ctx0 "hi" "summarize").2 = .ok d ∧
      dictGet d "provider" = some pOk2.name) := by
  have hf : ∀ p ∈ [pFail1], ∃ e,
      p.generate (get_system_prompt ctx0 "hi") = .error e := by
    intro p hp
    simp only [List.mem_singleton] at hp
    subst hp
    exact ⟨"boom1", rfl⟩
  exact ⟨rfl, rfl, hf, rfl, rfl,
    route_request_overwrites_provider_field rules0 pm0 ctx0 "hi" "summarize"
      ["p1", "p2"] [pFail1] pOk2 [] okDict "backend-internal" rfl rfl hf rfl rfl⟩

/-- C3: when every resolved candidate's generate call fails,
`route_request` fails with `NoAvailableProvider` whose detail is the
join of exactly one `"{name}: {reason}"` entry per attempted candidate,
in attempt order; no individual provider failure reaches the caller. -/
theorem route_request_all_fail_aggregates
    (rules : RoutingRules) (pm : ProviderMap) (ctx : IdentityData)
    (prompt task_type : String) (seq : List String)
    (hres : resolve_sequence rules task_type = some seq)
    (hne : resolve_candidates pm seq ≠ [])
    (hfail : ∀ p ∈ resolve_candidates pm seq, ∃ e,
      p.generate (get_system_prompt ctx prompt) = .error e) :
    (route_request rules pm ctx prompt task_type).2
      = .error (.noAvailableProvider
          ("All providers failed. Errors: " ++ String.intercalate "; "
            ((resolve_candidates pm seq).map (fun p =>
              p.name ++ ": "
                ++ errMsg (p.generate (get_system_prompt ctx prompt)))))) ∧
    ((resolve_candidates pm seq).map (fun p =>
      p.name ++ ": " ++ errMsg (p.generate (get_system_prompt ctx prompt)))).length
      = (resolve_candidates pm seq).length := by
  rw [route_request_eq_attemptLoop rules pm ctx prompt task_type seq hres hne,
    attemptLoop_all_fail ctx prompt _ [] [] hfail]
  exact ⟨by simp, by simp⟩

/-- Witness for C3: both candidates fail; the caller sees one aggregate
error listing `p1: boom1; p3: boom3`. -/
theorem route_request_all_fail_aggregates_witness :
    resolve_sequence rulesF "anything" = some ["p1", "p3"] ∧
    resolve_candidates pmF ["p1", "p3"] ≠ [] ∧
    (∀ p ∈ resolve_candidates pmF ["p1", "p3"], ∃ e,
      p.generate (get_system_prompt ctx0 "hi") = .error e) ∧
    (route_request rulesF pmF ctx0 "hi" "anything").2
      = .error (.noAvailableProvider
          ("All providers failed. Errors: " ++ String.intercalate "; "
            ((resolve_candidates pmF ["p1", "p3"]).map (fun p =>
              p.name ++ ": "
                ++ errMsg (p.generate (get_system_prompt ctx0 "hi")))))) := by
  have hf : ∀ p ∈ resolve_candidates pmF ["p1", "p3"], ∃ e,
      p.generate (get_system_prompt ctx0 "hi") = .error e := by
    intro p hp
    have hc : resolve_candidates pmF ["p1", "p3"] = [pFail1, pFail3] := rfl
    rw [hc] at hp
    simp only [List.mem_cons, List.not_mem_nil, or_false] at hp
    rcases hp with h | h <;> subst h
    · exact ⟨"boom1", rfl⟩
    · exact ⟨"boom3", rfl⟩
  have hne : resolve_candidates pmF ["p1", "p3"] ≠ [] := by
    rw [show resolve_candidates pmF ["p1", "p3"] = [pFail1, pFail3] from rfl]
    simp
  exact ⟨rfl, hne, hf,
    (route_request_all_fail_aggregates rulesF pmF ctx0 "hi" "anything"
      ["p1", "p3"] rfl hne hf).1⟩

/-- C4 counterexample: with a failing first candidate and a succeeding
second one, the prompt-decoration hook is invoked twice for the single
request (once per attempt), not exactly once as claimed. -/
theorem hook_called_twice_on_failover :
    (hook_prompts (route_request rules0 pm0 ctx0 "hi" "summarize").1).length = 2
    ∧ (hook_prompts (route_request rules0 pm0 ctx0 "hi" "summarize").1).length
      ≠ 1 := by
  have h : (hook_prompts (route_request rules0 pm0 ctx0 "hi" "summarize").1).length
      = 2 := by rfl
  exact ⟨h, by rw [h]; decide⟩

/-- C4 (amended): for every request, the prompt-decoration hook is
called exactly once per provider attempt, immediately before that
attempt, always on the raw user prompt; and because the hook is a pure
function of the loaded identity, every failover attempt of the request
receives the identical decorated prompt — for both `route_request` and
`route_request_stream`. -/
theorem hook_called_once_per_attempt (rules : RoutingRules)
    (pm : ProviderMap) (ctx : IdentityData) (prompt task_type : String) :
    trace_hook_discipline ctx prompt
      (route_request rules pm ctx prompt task_type).1 ∧
    trace_hook_discipline ctx prompt
      (route_request_stream rules pm ctx prompt task_type).1 := by
  obtain ⟨qs, h⟩ := route_request_trace_shape rules pm ctx prompt task_type
  obtain ⟨qs2, h2⟩ := route_request_stream_trace_shape rules pm ctx prompt task_type
  rw [h, h2]
  exact ⟨trace_hook_discipline_blocks ctx prompt qs,
    trace_hook_discipline_blocks ctx prompt qs2⟩

/-- C2 counterexample: provider `pA` yields a chunk to the caller and
then its stream raises; the router nevertheless advances to `pB`, so a
further candidate is attempted after a chunk has been yielded. -/
theorem stream_failover_after_first_chunk :
    (route_request_stream rulesS pmS ctx0 "hi" "chat").2.1
      = [[("type", "stream_chunk"), ("token", "A"), ("provider", "pA")],
         [("type", "stream_chunk"), ("token", "B"), ("provider", "pB")]] ∧
    attempted_names (route_request_stream rulesS pmS ctx0 "hi" "chat").1
      = ["pA", "pB"] ∧
    (route_request_stream rulesS pmS ctx0 "hi" "chat").2.2
      = StreamEnd.completed := by
  exact ⟨rfl, rfl, rfl⟩

/-- C2 (amended): `route_request_stream` advances past any candidate
whose stream raises — whether before or after yielding chunks; chunks
already yielded stand (they were forwarded to the caller), and the
router commits only when a candidate's stream terminates without
raising, after which no further candidate is attempted. -/
theorem route_request_stream_failover
    (rules : RoutingRules) (pm : ProviderMap) (ctx : IdentityData)
    (prompt task_type : String) (seq : List String)
    (bad : List Provider) (good : Provider) (rest : List Provider)
    (hres : resolve_sequence rules task_type = some seq)
    (hsplit : resolve_stream_candidates pm seq = bad ++ good :: rest)
    (hbad : ∀ p ∈ bad, ∃ e,
      (p.generate_stream (get_system_prompt ctx prompt)).raisesAfter = some e)
    (hgood : (good.generate_stream (get_system_prompt ctx prompt)).raisesAfter
      = none) :
    route_request_stream rules pm ctx prompt task_type
      = (attempt_blocks ctx prompt (bad ++ [good]),
         stream_outputs ctx prompt (bad ++ [good]),
         .completed) ∧
    attempted_names (route_request_stream rules pm ctx prompt task_type).1
      = (bad ++ [good]).map (·.name) := by
  have hne : resolve_stream_candidates pm seq ≠ [] := by
    rw [hsplit]
    simp
  rw [route_request_stream_eq_streamLoop rules pm ctx prompt task_type seq
      hres hne, hsplit,
    streamLoop_first_success ctx prompt good rest hgood bad [] [] [] hbad]
  exact ⟨by simp, by simp [attempted_names_attempt_blocks]⟩

/-- Witness for the amended C2: `pA` raises after its chunk, `pB`
completes; the call attempts exactly `pA` then `pB` and completes. -/
theorem route_request_stream_failover_witness :
    resolve_sequence rulesS "chat" = some ["pA", "pB"] ∧
    resolve_stream_candidates pmS ["pA", "pB"] = [pMid] ++ pStreamOk :: [] ∧
    (∀ p ∈ [pMid], ∃ e,
      (p.generate_stream (get_system_prompt ctx0 "hi")).raisesAfter = some e) ∧
    (pStreamOk.generate_stream (get_system_prompt ctx0 "hi")).raisesAfter
      = none ∧
    (route_request_stream rulesS pmS ctx0 "hi" "chat"
      = (attempt_blocks ctx0 "hi" ([pMid] ++ [pStreamOk]),
         stream_outputs ctx0 "hi" ([pMid] ++ [pStreamOk]),
         .completed) ∧
     attempted_names (route_request_stream rulesS pmS ctx0 "hi" "chat").1
      = ([pMid] ++ [pStreamOk]).map (·.name)) := by
  have hb : ∀ p ∈ [pMid], ∃ e,
      (p.generate_stream (get_system_prompt ctx0 "hi")).raisesAfter = some e := by
    intro p hp
    simp only [List.mem_singleton] at hp
    subst hp
    exact ⟨"mid-boom", rfl⟩
  exact ⟨rfl, rfl, hb, rfl,
    route_request_stream_failover rulesS pmS ctx0 "hi" "chat" ["pA", "pB"]
      [pMid] pStreamOk [] rfl rfl hb rfl⟩

/-- C6: a task type with no explicit routing entry resolves through the
`__default__` entry; and with the routing file absent, resolution for
any task type yields the hard-coded default list of exactly two provider
names. -/
theorem default_routing_and_hardcoded_fallback
    (rules : RoutingRules) (task_type : String)
    (hnone : lookupRule rules task_type = none) :
    resolve_sequence rules task_type = lookupRule rules "__default__" ∧
    (∀ t : String, resolve_sequence (load_routing_rules .absent) t
      = some ["gemini-primary", "ollama-failover"]) ∧
    (["gemini-primary", "ollama-failover"] : List String).length = 2 := by
  refine ⟨by simp [resolve_sequence, hnone], ?_, rfl⟩
  intro t
  show resolve_sequence
    [("__default__", ["gemini-primary", "ollama-failover"])] t = _
  unfold resolve_sequence
  rw [lookupRule_singleton, lookupRule_singleton]
  by_cases h : ("__default__" : String) = t
  · simp [h]
  · simp [h]

/-- Witness for C6 at the task type `translate`, which has no entry in
`rules0`. -/
theorem default_routing_and_hardcoded_fallback_witness :
    lookupRule rules0 "translate" = none ∧
    (resolve_sequence rules0 "translate" = lookupRule rules0 "__default__" ∧
     (∀ t : String, resolve_sequence (load_routing_rules .absent) t
       = some ["gemini-primary", "ollama-failover"]) ∧
     (["gemini-primary", "ollama-failover"] : List String).length = 2) :=
  ⟨rfl, default_routing_and_hardcoded_fallback rules0 "translate" rfl⟩

theorem filter_partition_length {α : Type} (f : α → Bool) (l : List α) :
    (l.filter f).length + (l.filter (fun x => !f x)).length = l.length := by
  induction l with
  | nil => rfl
  | cons a l ih =>
      cases h : f a <;> simp [List.filter_cons, h] <;> omega

theorem gemini_check_health_status (e : GeminiHealthEnv) :
    (dictGet (gemini_check_health e) "status").getD "Unknown"
      ∈ closed_status_set := by
  by_cases hak : e.api_key_truthy
  · cases hlm : e.list_models with
    | error m =>
        simp [gemini_check_health, hak, hlm, dictGet, List.find?,
          closed_status_set]
    | ok models =>
        by_cases hm : models.any (fun m => m.endsWith e.model_name) <;>
          simp [gemini_check_health, hak, hlm, hm, dictGet, List.find?,
            closed_status_set]
  · simp [gemini_check_health, hak, dictGet, List.find?, closed_status_set]

theorem ollama_check_health_status (u : String) (env : OllamaHealthEnv) :
    (dictGet (ollama_check_health u env) "status").getD "Unknown"
      ∈ closed_status_set := by
  cases env <;>
    simp [ollama_check_health, dictGet, List.find?, closed_status_set]

theorem record_for_status_concrete (p : Provider)
    (h : concrete_probe_outcome p.check_health) :
    (record_for p).status ∈ closed_status_set := by
  cases hc : p.check_health with
  | raises msg => simp [record_for, hc, closed_status_set]
  | returnsOther => simp [record_for, hc, closed_status_set]
  | returnsDict d =>
      rw [hc] at h
      rw [concrete_probe_outcome.eq_def] at h
      simp only at h
      rcases h with ⟨e, rfl⟩ | ⟨u, e, rfl⟩
      · simpa [record_for, hc] using gemini_check_health_status e
      · simpa [record_for, hc] using ollama_check_health_status u e

theorem mem_statuses_records (pm : ProviderMap) (r : HealthRecord)
    (hr : r ∈ (get_provider_statuses pm).2) :
    (∃ p, p ∈ pm.map (·.2) ∧ p.enabled = true ∧ r = record_for p) ∨
    (∃ p, p ∈ pm.map (·.2) ∧ p.enabled = false ∧ r = disabled_record p) := by
  simp only [get_provider_statuses, List.mem_append] at hr
  rcases hr with hr | hr
  · obtain ⟨p, hp, rfl⟩ := List.mem_map.mp hr
    have hp' := List.mem_filter.mp hp
    exact .inl ⟨p, hp'.1, hp'.2, rfl⟩
  · obtain ⟨p, hp, rfl⟩ := List.mem_map.mp hr
    have hp' := List.mem_filter.mp hp
    exact .inr ⟨p, hp'.1, by simpa using hp'.2, rfl⟩

/-- C7: `get_provider_statuses` returns exactly one record per
registered provider, converts a probe that raises into an `Error`
record carrying the exception message (never aborting the aggregation),
and its summary's `errors` count equals the number of `Error` records
in the returned list. -/
theorem get_provider_statuses_isolation (pm : ProviderMap) :
    ((get_provider_statuses pm).2).length = pm.length ∧
    (get_provider_statuses pm).1.errors
      = (((get_provider_statuses pm).2).filter
          (fun s => s.status == "Error")).length ∧
    (∀ p ∈ pm.map (·.2), p.enabled = true →
      ∀ msg, p.check_health = .raises msg →
        record_for p ∈ (get_provider_statuses pm).2 ∧
        (record_for p).status = "Error" ∧
        (record_for p).details = "Health check failed: " ++ msg) := by
  refine ⟨?_, ?_, ?_⟩
  · simp only [get_provider_statuses, List.length_append, List.length_map]
    rw [filter_partition_length]
    simp
  · simp [get_provider_statuses]
  · intro p hp hen msg hmsg
    refine ⟨?_, by simp [record_for, hmsg], by simp [record_for, hmsg]⟩
    simp only [get_provider_statuses, List.mem_append]
    exact .inl (List.mem_map_of_mem _ (List.mem_filter.mpr ⟨hp, hen⟩))

/-- Witness for C7 at the spec's own scenario: three enabled providers,
two succeeding and one whose probe raises, produce exactly three
records, the raising one marked `Error` with the message in its
details, and a summary counting one error. -/
theorem get_provider_statuses_isolation_witness :
    ((get_provider_statuses pmH).2).length = pmH.length ∧
    ((get_provider_statuses pmH).2).length = 3 ∧
    (get_provider_statuses pmH).1.errors = 1 ∧
    (record_for pCrash ∈ (get_provider_statuses pmH).2 ∧
     (record_for pCrash).status = "Error" ∧
     (record_for pCrash).details = "Health check failed: " ++ "probe-crash") := by
  refine ⟨(get_provider_statuses_isolation pmH).1, rfl, rfl, ?_⟩
  exact (get_provider_statuses_isolation pmH).2.2 pCrash (by simp [pmH])
    rfl "probe-crash" rfl

/-- C8 counterexample: a probe returning `{"status": "Banana"}` yields a
record whose status is `Banana`, outside the claimed closed set — the
router passes an unrecognized status value through unvalidated. -/
theorem health_status_escapes_closed_set :
    ((get_provider_statuses pmB).2).map (·.status) = ["Banana"] ∧
    "Banana" ∉ closed_status_set := by
  exact ⟨rfl, by decide⟩

/-- C8 (amended): a health record's status is `Unknown` whenever the
probe returns a non-dict value or a dict without a `status` key; a
returned `status` value is passed through unvalidated, so the closed
set {Active, Offline, Error, Disabled, Unknown} is guaranteed exactly
when every enabled provider's probe either raises, returns a non-dict,
or returns a dict produced by one of the repository's two concrete
`check_health` implementations. -/
theorem health_status_domain (pm : ProviderMap)
    (hprobe : ∀ p ∈ pm.map (·.2), concrete_probe_outcome p.check_health) :
    (∀ r ∈ (get_provider_statuses pm).2, r.status ∈ closed_status_set) ∧
    (∀ p : Provider, p.check_health = .returnsOther →
      (record_for p).status = "Unknown") ∧
    (∀ (p : Provider) (d : Dict), p.check_health = .returnsDict d →
      dictGet d "status" = none → (record_for p).status = "Unknown") := by
  refine ⟨?_, ?_, ?_⟩
  · intro r hr
    rcases mem_statuses_records pm r hr with ⟨p, hp, _, rfl⟩ | ⟨p, _, _, rfl⟩
    · exact record_for_status_concrete p (hprobe p hp)
    · simp [disabled_record, closed_status_set]
  · intro p h
    simp [record_for, h]
  · intro p d h hnone
    simp [record_for, h, hnone]

/-- Witness for the amended C8: a registry whose only provider probes
through the Gemini implementation yields records entirely inside the
closed status set. -/
theorem health_status_domain_witness :
    (∀ p ∈ pmG.map (·.2), concrete_probe_outcome p.check_health) ∧
    (∀ r ∈ (get_provider_statuses pmG).2, r.status ∈ closed_status_set) := by
  have hp : ∀ p ∈ pmG.map (·.2), concrete_probe_outcome p.check_health := by
    intro p hp
    simp only [pmG, List.map_cons, List.map_nil, List.mem_singleton] at hp
    subst hp
    exact .inl ⟨gemEnvOk, rfl⟩
  exact ⟨hp, (health_status_domain pmG hp).1⟩

theorem stream_chunk_not_error (t : String) :
    is_error_chunk [("type", "stream_chunk"), ("token", t)] = false := rfl

theorem error_chunk_is_error (nm msg : String) :
    is_error_chunk
      [("type", "error"), ("detail", "Error from " ++ nm ++ ": " ++ msg)]
      = true := rfl

theorem filter_error_map_tokens (ts : List String) :
    (ts.map (fun t => [("type", "stream_chunk"), ("token", t)])).filter
      is_error_chunk = [] := by
  induction ts with
  | nil => rfl
  | cons t ts ih => simp [List.filter_cons, stream_chunk_not_error, ih]

/-- C9: when either concrete provider's stream fails after it has begun
producing tokens, the chunk sequence carries exactly one error-tagged
element, placed last, every earlier element being an ordinary stream
chunk; the generator terminates instead of raising. -/
theorem stream_midfailure_reported_inband
    (gname : String) (b : GeminiBackendStream) (msgG : String)
    (oname : String) (ob : OllamaBackendStream) (msgO : String)
    (hgb : b.failure = some msgG) (hgbegun : b.tokens ≠ [])
    (hob : ob.failure = some msgO)
    (hobegun : (ob.lines.filterMap id).filter (fun t => t ≠ "") ≠ []) :
    (((gemini_generate_stream gname b).filter is_error_chunk).length = 1 ∧
     (gemini_generate_stream gname b).getLast?
       = some [("type", "error"),
               ("detail", "Error from " ++ gname ++ ": " ++ msgG)] ∧
     ∀ c ∈ (gemini_generate_stream gname b).dropLast,
       is_error_chunk c = false) ∧
    (((ollama_generate_stream oname ob).filter is_error_chunk).length = 1 ∧
     (ollama_generate_stream oname ob).getLast?
       = some [("type", "error"),
               ("detail", "Error from " ++ oname ++ ": " ++ msgO)] ∧
     ∀ c ∈ (ollama_generate_stream oname ob).dropLast,
       is_error_chunk c = false) := by
  have hg : gemini_generate_stream gname b
      = b.tokens.map (fun t => [("type", "stream_chunk"), ("token", t)])
        ++ [[("type", "error"),
             ("detail", "Error from " ++ gname ++ ": " ++ msgG)]] := by
    simp [gemini_generate_stream, hgb]
  have ho : ollama_generate_stream oname ob
      = ((ob.lines.filterMap id).filter (fun t => t ≠ "")).map
          (fun t => [("type", "stream_chunk"), ("token", t)])
        ++ [[("type", "error"),
             ("detail", "Error from " ++ oname ++ ": " ++ msgO)]] := by
    simp [ollama_generate_stream, hob]
  refine ⟨⟨?_, ?_, ?_⟩, ⟨?_, ?_, ?_⟩⟩
  · rw [hg, List.filter_append, filter_error_map_tokens]
    simp [List.filter_cons, error_chunk_is_error]
  · rw [hg, List.getLast?_concat]
  · rw [hg, List.dropLast_concat]
    intro c hc
    obtain ⟨t, _, rfl⟩ := List.mem_map.mp hc
    exact stream_chunk_not_error t
  · rw [ho, List.filter_append, filter_error_map_tokens]
    simp [List.filter_cons, error_chunk_is_error]
  · rw [ho, List.getLast?_concat]
  · rw [ho, List.dropLast_concat]
    intro c hc
    obtain ⟨t, _, rfl⟩ := List.mem_map.mp hc
    exact stream_chunk_not_error t

/-- Witness for C9: a Gemini stream that yields two tokens and then
fails, and an Ollama stream with one good line, one unparsable line and
one empty token that then fails, each end in exactly one final
error-tagged chunk. -/
theorem stream_midfailure_reported_inband_witness :
    (GeminiBackendStream.mk ["x", "y"] (some "net-reset")).failure
      = some "net-reset" ∧
    (GeminiBackendStream.mk ["x", "y"] (some "net-reset")).tokens ≠ [] ∧
    (OllamaBackendStream.mk [some "x", none, some ""] (some "conn")).failure
      = some "conn" ∧
    ((OllamaBackendStream.mk [some "x", none, some ""]
        (some "conn")).lines.filterMap id).filter (fun t => t ≠ "") ≠ [] ∧
    ((((gemini_generate_stream "gem"
          (GeminiBackendStream.mk ["x", "y"] (some "net-reset"))).filter
        is_error_chunk).length = 1 ∧
      (gemini_generate_stream "gem"
          (GeminiBackendStream.mk ["x", "y"] (some "net-reset"))).getLast?
        = some [("type", "error"),
                ("detail", "Error from " ++ "gem" ++ ": " ++ "net-reset")] ∧
      ∀ c ∈ (gemini_generate_stream "gem"
          (GeminiBackendStream.mk ["x", "y"] (some "net-reset"))).dropLast,
        is_error_chunk c = false) ∧
     (((ollama_generate_stream "oll"
          (OllamaBackendStream.mk [some "x", none, some ""]
            (some "conn"))).filter is_error_chunk).length = 1 ∧
      (ollama_generate_stream "oll"
          (OllamaBackendStream.mk [some "x", none, some ""]
            (some "conn"))).getLast?
        = some [("type", "error"),
                ("detail", "Error from " ++ "oll" ++ ": " ++ "conn")] ∧
      ∀ c ∈ (ollama_generate_stream "oll"
          (OllamaBackendStream.mk [some "x", none, some ""]
            (some "conn"))).dropLast,
        is_error_chunk c = false)) := by
  refine ⟨rfl, by simp, rfl, by simp, ?_⟩
  exact stream_midfailure_reported_inband "gem"
    (GeminiBackendStream.mk ["x", "y"] (some "net-reset")) "net-reset"
    "oll" (OllamaBackendStream.mk [some "x", none, some ""] (some "conn"))
    "conn" rfl (by simp) rfl (by simp)

theorem mem_updateProviders (pm : ProviderMap) (k : String) (v : Provider) :
    ∀ x ∈ updateProviders pm k v, x ∈ pm ∨ x = (k, v) := by
  intro x hx
  unfold updateProviders at hx
  by_cases ha : pm.any (fun kv => kv.1 == k)
  · rw [if_pos ha] at hx
    obtain ⟨y, hy, rfl⟩ := List.mem_map.mp hx
    by_cases hk : y.1 == k
    · right
      simp [hk]
    · left
      simpa [hk] using hy
  · rw [if_neg ha] at hx
    rcases List.mem_append.mp hx with h | h
    · exact .inl h
    · right
      simpa using h

theorem load_providers_from_inv
    (construct : String → ProviderConfigEntry → Option ProviderImpl)
    (n : String) :
    ∀ (entries : List ProviderConfigEntry) (pm : ProviderMap),
    (∀ e ∈ entries, e.name = some n → e.enabled = some false) →
    (∀ kv ∈ pm, kv.1 ≠ n ∧ kv.2.name = kv.1) →
    ∀ kv ∈ load_providers_from construct entries pm,
      kv.1 ≠ n ∧ kv.2.name = kv.1
  | [], pm, _, hpm => by
      simpa [load_providers_from] using hpm
  | e :: rest, pm, hdis, hpm => by
      intro kv hkv
      have hrest : ∀ e2 ∈ rest, e2.name = some n → e2.enabled = some false :=
        fun e2 h2 => hdis e2 (List.mem_cons_of_mem _ h2)
      cases hna : e.name with
      | none =>
          simp only [load_providers_from, hna] at hkv
          exact load_providers_from_inv construct n rest pm hrest hpm kv hkv
      | some n' =>
          cases hti : e.ptype with
          | none =>
              simp only [load_providers_from, hna, hti] at hkv
              exact load_providers_from_inv construct n rest pm hrest hpm kv hkv
          | some t =>
              simp only [load_providers_from, hna, hti] at hkv
              by_cases hempty : (n' == "" || t == "") = true
              · rw [if_pos hempty] at hkv
                exact load_providers_from_inv construct n rest pm hrest hpm kv hkv
              · rw [if_neg hempty] at hkv
                by_cases hen : e.enabled.getD true = true
                · rw [if_pos hen] at hkv
                  by_cases hknown : (t == "gemini" || t == "ollama") = true
                  · rw [if_pos hknown] at hkv
                    cases hcon : construct t e with
                    | none =>
                        simp only [hcon] at hkv
                        exact load_providers_from_inv construct n rest pm
                          hrest hpm kv hkv
                    | some impl =>
                        simp only [hcon] at hkv
                        have hne : n' ≠ n := by
                          intro hEq
                          subst hEq
                          have hfalse := hdis e (List.mem_cons_self e rest) hna
                          rw [hfalse] at hen
                          simp at hen
                        refine load_providers_from_inv construct n rest _
                          hrest ?_ kv hkv
                        intro kv2 hkv2
                        rcases mem_updateProviders pm n' _ kv2 hkv2 with h | h
                        · exact hpm kv2 h
                        · rw [h]
                          exact ⟨hne, rfl⟩
                  · rw [if_neg hknown] at hkv
                    exact load_providers_from_inv construct n rest pm
                      hrest hpm kv hkv
                · rw [if_neg hen] at hkv
                  exact load_providers_from_inv construct n rest pm
                    hrest hpm kv hkv

theorem record_for_name (p : Provider) : (record_for p).name = p.name := by
  cases h : p.check_health <;> simp [record_for, h]

theorem get_provider_mem (pm : ProviderMap) (m : String) (p : Provider)
    (h : get_provider pm m = some p) : ∃ kv ∈ pm, kv.2 = p := by
  unfold get_provider at h
  obtain ⟨kv, hfind, hkv⟩ := Option.map_eq_some'.mp h
  exact ⟨kv, List.mem_of_find?_eq_some hfind, hkv⟩

/-- C5 (amended): a provider whose configuration entry says
`enabled: false` is never instantiated into the registry by
`_load_providers`: lookup by its name yields nothing, it never appears
in the candidate list of `route_request` or `route_request_stream`, no
health probe can be invoked on it, and `get_provider_statuses` reports
no record at all under its name (in particular no `Disabled` record). -/
theorem disabled_provider_excluded_everywhere
    (construct : String → ProviderConfigEntry → Option ProviderImpl)
    (entries : List ProviderConfigEntry) (n : String)
    (hdis : ∀ e ∈ entries, e.name = some n → e.enabled = some false) :
    get_provider (load_providers construct entries) n = none ∧
    (∀ seq : List String,
      ∀ p ∈ resolve_candidates (load_providers construct entries) seq,
        p.name ≠ n) ∧
    (∀ seq : List String,
      ∀ p ∈ resolve_stream_candidates (load_providers construct entries) seq,
        p.name ≠ n) ∧
    (∀ r ∈ (get_provider_statuses (load_providers construct entries)).2,
      r.name ≠ n) := by
  have hinv : ∀ kv ∈ load_providers construct entries,
      kv.1 ≠ n ∧ kv.2.name = kv.1 :=
    load_providers_from_inv construct n entries [] hdis (by simp)
  have hname : ∀ p ∈ (load_providers construct entries).map (·.2),
      p.name ≠ n := by
    intro p hp
    obtain ⟨kv, hkv, rfl⟩ := List.mem_map.mp hp
    rw [(hinv kv hkv).2]
    exact (hinv kv hkv).1
  have hget : ∀ (m : String) (p : Provider),
      get_provider (load_providers construct entries) m = some p →
      p.name ≠ n := by
    intro m p h
    obtain ⟨kv, hkv, rfl⟩ := get_provider_mem _ m p h
    rw [(hinv kv hkv).2]
    exact (hinv kv hkv).1
  refine ⟨?_, ?_, ?_, ?_⟩
  · unfold get_provider
    rw [List.find?_eq_none.mpr ?_]
    · rfl
    · intro kv hkv
      simpa using (hinv kv hkv).1
  · intro seq p hp
    obtain ⟨m, _, hm⟩ := List.mem_filterMap.mp hp
    cases hg : get_provider (load_providers construct entries) m with
    | none => rw [hg] at hm; simp at hm
    | some q =>
        rw [hg] at hm
        have hq : q = p := by
          by_cases he : q.enabled = true <;> simp [he] at hm
          exact hm
        exact hq ▸ hget m q hg
  · intro seq p hp
    obtain ⟨m, _, hm⟩ := List.mem_filterMap.mp hp
    cases hg : get_provider (load_providers construct entries) m with
    | none => rw [hg] at hm; simp at hm
    | some q =>
        rw [hg] at hm
        have hq : q = p := by
          by_cases he : (q.enabled && q.supports_streaming) = true <;>
            simp [he] at hm
          exact hm
        exact hq ▸ hget m q hg
  · intro r hr
    rcases mem_statuses_records _ r hr with ⟨p, hp, _, rfl⟩ | ⟨p, hp, _, rfl⟩
    · rw [record_for_name]
      exact hname p hp
    · exact hname p hp

/-- Witness for the amended C5: loading `entriesD` (one disabled entry
named `p1`) yields a registry in which `p1` does not exist and for
which the health aggregation reports no record named `p1`. -/
theorem disabled_provider_excluded_everywhere_witness :
    (∀ e ∈ entriesD, e.name = some "p1" → e.enabled = some false) ∧
    get_provider (load_providers constructTriv entriesD) "p1" = none ∧
    (∀ r ∈ (get_provider_statuses (load_providers constructTriv entriesD)).2,
      r.name ≠ "p1") := by
  have hd : ∀ e ∈ entriesD, e.name = some "p1" → e.enabled = some false := by
    intro e he _
    simp only [entriesD, List.mem_singleton] at he
    subst he
    rfl
  have h := disabled_provider_excluded_everywhere constructTriv entriesD
    "p1" hd
  exact ⟨hd, h.1, h.2.2.2⟩

/-- C5 counterexample: the single `enabled: false` entry `p1` is dropped
by the loader entirely, so `get_provider_statuses` returns an empty
record list — in particular no record with status `Disabled`, contrary
to the claim. -/
theorem disabled_provider_not_reported :
    load_providers constructTriv entriesD = [] ∧
    (get_provider_statuses (load_providers constructTriv entriesD)).2 = [] ∧
    ((get_provider_statuses (load_providers constructTriv entriesD)).2.filter
      (fun r => r.status == "Disabled")) = [] :=
  ⟨rfl, rfl, rfl⟩

end Praxoimous
